import Mathlib

/-!
# Verification of the `cmim` (Cortex-M Interrupt Move) primitive

A shallow embedding of `src/lib.rs`. The crate provides `Move<T, I>`, a
single-slot ownership cell bound to one interrupt/exception context, with
three operations: `try_move` (deposit/replace a payload from thread mode),
`try_free` (reclaim the payload from thread mode) and `try_lock` (scoped
mutable access from the bound handler context).

Modelling choices, all driven by the source:

* `MaybeUninit<T>` becomes `Option T`: `none` stands for uninitialized
  bytes, `some x` for an initialized payload. The atomic state tag remains
  the sole authority for whether the cell is populated, exactly as in the
  source; branches the source only reaches when the tag says "initialized"
  read the `Option` under that assumption.
* The `AtomicU8` state tag becomes a `Nat`. The source only ever stores
  0, 1, 2 but pattern-matches with a catch-all `Self::LOCKED | _`, which
  the `Nat` model preserves for every out-of-range value.
* The platform facts the crate consumes are made explicit arguments and
  outputs: the live vector (`SCB::vect_active()`, of type `VectActive`)
  is an argument, and whether the call ran inside a
  `cortex_m::interrupt::free` critical section is reported in the `cs`
  field of the result (the source wraps the whole body of `try_move` and
  `try_free`, including the thread-mode check, in `free`; `try_lock` uses
  no critical section).
* The user closure `FnOnce(&mut T) -> R` of `try_lock` becomes a pure
  function `T → R × T`: it consumes the current payload and yields the
  callback result together with the mutated payload.
-/

/-- Model of `cortex_m::peripheral::scb::Exception`: the fixed set of core
exceptions, re-exported by the crate. Equality is derived, matching the
`PartialEq` derive on the Rust enum. -/
inductive Exception
  | NonMaskableInt
  | HardFault
  | MemoryManagement
  | BusFault
  | UsageFault
  | SecureFault
  | SVCall
  | DebugMonitor
  | PendSV
  | SysTick
  deriving DecidableEq, BEq, Fintype

/-- Model of `cortex_m::peripheral::scb::VectActive`: what is currently
executing — thread mode, a core exception, or a numbered device interrupt
(`Interrupt { irqn: u8 }`, the number modelled as `Nat`). -/
inductive VectActive
  | ThreadMode
  | Exception (e : Exception)
  | Interrupt (irqn : Nat)
  deriving DecidableEq

/-- Model of the `bare_metal::Nr` trait: an interrupt type exposing its
numeric id (`fn nr(&self) -> u8`, modelled as `Nat`). -/
class Nr (I : Type) where
  nr : I → Nat

/-- Type `Context` from `src/lib.rs`: the place data is moved to — either a core
exception or a device-specific interrupt. -/
inductive Context (I : Type)
  | Exception (e : Exception)
  | Interrupt (i : I)

/-- The `PartialEq<VectActive> for Context<I>` impl (`src/lib.rs` lines
202–210): an exception-bound context equals a live exception iff the
exceptions are equal; an interrupt-bound context equals a live interrupt iff
the numeric ids agree; every other pairing (kind mismatch, or thread mode)
is unequal. -/
def Context.eq [Nr I] : Context I → VectActive → Bool
  | Context.Exception e_s, VectActive.Exception e_o => e_s == e_o
  | Context.Interrupt i_s, VectActive.Interrupt irqn => Nr.nr i_s == irqn
  | _, _ => false

/-- Struct `Move` from `src/lib.rs`: the payload cell (`UnsafeCell<MaybeUninit<T>>`,
modelled as `Option T`), the `AtomicU8` state tag (modelled as `Nat`) and
the bound context. -/
structure Move (T : Type) (I : Type) where
  data : Option T
  state : Nat
  context : Context I

/-- State tag `Move::UNINIT`: the data is uninitialized. -/
def Move.UNINIT : Nat := 0

/-- State tag `Move::INIT_AND_IDLE`: the data is initialized and not
currently locked. -/
def Move.INIT_AND_IDLE : Nat := 1

/-- State tag `Move::LOCKED`: the data is initialized but currently locked
by an interrupt. -/
def Move.LOCKED : Nat := 2

/-- Constructor `Move::new_uninitialized(ctxt)` (`src/lib.rs` lines 253–259): an empty
cell, state tag `UNINIT`. (Renamed here; the source name is
`new_uninitialized`.) -/
def Move.new_uninit (ctxt : Context I) : Move T I :=
  { data := none, state := Move.UNINIT, context := ctxt }

/-- Constructor `Move::new(data, ctxt)` (`src/lib.rs` lines 269–275): the payload cell
is written with `MaybeUninit::new(data)`, but the state tag is set to
`UNINIT` — exactly as the source does (`AtomicU8::new(Self::UNINIT)`). -/
def Move.new (data : T) (ctxt : Context I) : Move T I :=
  { data := some data, state := Move.UNINIT, context := ctxt }

/-- Result of one operation: the returned `Result` value, the cell
afterwards, and whether the call ran inside a
`cortex_m::interrupt::free` critical section. -/
structure OpResult (E A T I : Type) where
  ret : Except E A
  cell : Move T I
  cs : Bool

/-- Operation `Move::try_move` (`src/lib.rs` lines 293–337). The whole body runs
inside `free(|_cs| ...)`, so `cs := true` on every path, including the
non-thread-mode early return. In thread mode: tag `UNINIT` writes the new
value and moves the tag to `INIT_AND_IDLE` returning `Ok(None)`; tag
`INIT_AND_IDLE` replaces the payload returning the old one (`m.data` holds
that old value, `some old` whenever the tag is honest); any other tag
(`Self::LOCKED | _`) returns `Err(data)` untouched. -/
def Move.try_move (live : VectActive) (m : Move T I) (data : T) :
    OpResult T (Option T) T I :=
  match live with
  | VectActive.ThreadMode =>
    if m.state = Move.UNINIT then
      { ret := Except.ok none,
        cell := { m with data := some data, state := Move.INIT_AND_IDLE },
        cs := true }
    else if m.state = Move.INIT_AND_IDLE then
      { ret := Except.ok m.data,
        cell := { m with data := some data },
        cs := true }
    else
      { ret := Except.error data, cell := m, cs := true }
  | _ => { ret := Except.error data, cell := m, cs := true }

/-- Operation `Move::try_free` (`src/lib.rs` lines 348–381). The whole body runs
inside `free(|_cs| ...)`, so `cs := true` on every path. In thread mode:
tag `UNINIT` returns `Ok(None)` unchanged; tag `INIT_AND_IDLE` takes the
payload out (`assume_init`, honest tag means `m.data = some old`), resets
the cell to uninitialized bytes and the tag to `UNINIT`; any other tag
(`Self::LOCKED | _`) returns `Err(())` untouched. -/
def Move.try_free (live : VectActive) (m : Move T I) :
    OpResult Unit (Option T) T I :=
  match live with
  | VectActive.ThreadMode =>
    if m.state = Move.UNINIT then
      { ret := Except.ok none, cell := m, cs := true }
    else if m.state = Move.INIT_AND_IDLE then
      { ret := Except.ok m.data,
        cell := { m with data := none, state := Move.UNINIT },
        cs := true }
    else
      { ret := Except.error (), cell := m, cs := true }
  | _ => { ret := Except.error (), cell := m, cs := true }

/-- Operation `Move::try_lock` (`src/lib.rs` lines 390–436). No critical section is
used (`cs := false` everywhere). If the bound context does not equal the
live vector, `Err(())` immediately. Otherwise: tag `UNINIT` gives
`Err(())`; tag `INIT_AND_IDLE` stores `LOCKED`, runs the closure on the
payload, stores `INIT_AND_IDLE` back and returns `Ok(result)` (the inner
`none` branch is unreachable when the tag is honest — reading it would be
undefined behaviour in the source — and is modelled as failing closed);
any other tag (`Self::LOCKED | _`) gives `Err(())`. -/
def Move.try_lock [Nr I] (live : VectActive) (m : Move T I)
    (f : T → R × T) : OpResult Unit R T I :=
  if Context.eq m.context live = false then
    { ret := Except.error (), cell := m, cs := false }
  else if m.state = Move.UNINIT then
    { ret := Except.error (), cell := m, cs := false }
  else if m.state = Move.INIT_AND_IDLE then
    match m.data with
    | some d =>
      let mLocked := { m with state := Move.LOCKED }
      let rd := f d
      { ret := Except.ok rd.1,
        cell := { mLocked with data := some rd.2, state := Move.INIT_AND_IDLE },
        cs := false }
    | none => { ret := Except.error (), cell := m, cs := false }
  else
    { ret := Except.error (), cell := m, cs := false }

/-- A small concrete interrupt type for evaluating the model, standing in
for a PAC-generated interrupt enum (for example `Interrupt::TIMER1`). -/
inductive TestIrq
  | timer1
  | uart0
  deriving DecidableEq

instance : Nr TestIrq where
  nr i :=
    match i with
    | TestIrq.timer1 => 17
    | TestIrq.uart0 => 2

example :
    (Move.try_move VectActive.ThreadMode
      (Move.new_uninit (Context.Interrupt TestIrq.timer1) : Move Nat TestIrq) 5).ret
      = Except.ok none := rfl

example :
    (Move.try_lock (VectActive.Interrupt 17)
      (Move.new 42 (Context.Interrupt TestIrq.timer1) : Move Nat TestIrq)
      (fun d => (d, d))).ret = Except.error () := rfl

/-- C3: thread-mode `try_move(new_value)`: from `Uninit` it writes the value,
moves to `InitAndIdle` and returns `Ok(None)`; from `InitAndIdle` holding
`old` it swaps the value in and returns `Ok(Some(old))` with the state still
`InitAndIdle`; from `Locked` it returns `Err(new_value)` with cell and
payload unchanged. -/
theorem try_move_thread_cases {T I : Type} (m : Move T I) (v : T) :
    (m.state = Move.UNINIT →
      Move.try_move VectActive.ThreadMode m v =
        { ret := Except.ok none,
          cell := { m with data := some v, state := Move.INIT_AND_IDLE },
          cs := true }) ∧
    (∀ old, m.state = Move.INIT_AND_IDLE → m.data = some old →
      Move.try_move VectActive.ThreadMode m v =
        { ret := Except.ok (some old),
          cell := { m with data := some v, state := Move.INIT_AND_IDLE },
          cs := true }) ∧
    (m.state = Move.LOCKED →
      Move.try_move VectActive.ThreadMode m v =
        { ret := Except.error v, cell := m, cs := true }) := by
  refine ⟨fun h0 => ?_, fun old h1 hd => ?_, fun h2 => ?_⟩
  · simp [Move.try_move, h0]
  · simp [Move.try_move, Move.UNINIT, Move.INIT_AND_IDLE, h1, hd]
  · simp [Move.try_move, Move.UNINIT, Move.INIT_AND_IDLE, Move.LOCKED, h2]

/-- Witness for C3: a concrete cell in `InitAndIdle` holding `3`; moving `8`
in returns `Ok(Some 3)` and leaves the cell holding `8`, still idle. -/
theorem try_move_thread_cases_w :
    Move.try_move VectActive.ThreadMode
      ({ data := some 3, state := Move.INIT_AND_IDLE,
         context := Context.Interrupt TestIrq.timer1 } : Move Nat TestIrq) 8 =
      { ret := Except.ok (some 3),
        cell := { data := some 8, state := Move.INIT_AND_IDLE,
                  context := Context.Interrupt TestIrq.timer1 },
        cs := true } :=
  (try_move_thread_cases _ 8).2.1 3 rfl rfl

/-- C4: thread-mode `try_free()`: from `Uninit` it returns `Ok(None)` with
nothing changed; from `InitAndIdle` holding `x` it removes and returns the
payload as `Ok(Some x)` and moves to `Uninit`; from `Locked` it returns
`Err(())` with cell and payload unchanged. -/
theorem try_free_thread_cases {T I : Type} (m : Move T I) :
    (m.state = Move.UNINIT →
      Move.try_free VectActive.ThreadMode m =
        { ret := Except.ok none, cell := m, cs := true }) ∧
    (∀ x, m.state = Move.INIT_AND_IDLE → m.data = some x →
      Move.try_free VectActive.ThreadMode m =
        { ret := Except.ok (some x),
          cell := { m with data := none, state := Move.UNINIT },
          cs := true }) ∧
    (m.state = Move.LOCKED →
      Move.try_free VectActive.ThreadMode m =
        { ret := Except.error (), cell := m, cs := true }) := by
  refine ⟨fun h0 => ?_, fun x h1 hd => ?_, fun h2 => ?_⟩
  · simp [Move.try_free, h0]
  · simp [Move.try_free, Move.UNINIT, Move.INIT_AND_IDLE, h1, hd]
  · simp [Move.try_free, Move.UNINIT, Move.INIT_AND_IDLE, Move.LOCKED, h2]

/-- Witness for C4: freeing a concrete idle cell holding `9` returns
`Ok(Some 9)` and resets the cell to `Uninit`. -/
theorem try_free_thread_cases_w :
    Move.try_free VectActive.ThreadMode
      ({ data := some 9, state := Move.INIT_AND_IDLE,
         context := Context.Interrupt TestIrq.uart0 } : Move Nat TestIrq) =
      { ret := Except.ok (some 9),
        cell := { data := none, state := Move.UNINIT,
                  context := Context.Interrupt TestIrq.uart0 },
        cs := true } :=
  (try_free_thread_cases _).2.1 9 rfl rfl

/-- C2: `try_lock(callback)` while the live context equals the bound
context: from `InitAndIdle` holding `d` it locks, runs the callback once on
the payload, unlocks, and returns `Ok` of the callback result with the cell
back in `InitAndIdle` holding the mutated payload; from `Uninit` it returns
`Err(())` unchanged; from `Locked` (a reentrant call from within the
callback, which runs while the tag is `LOCKED`) it returns `Err(())`
unchanged. -/
theorem try_lock_matched_cases {T I R : Type} [Nr I] (m : Move T I)
    (live : VectActive) (f : T → R × T)
    (hctx : Context.eq m.context live = true) :
    (∀ d, m.state = Move.INIT_AND_IDLE → m.data = some d →
      Move.try_lock live m f =
        { ret := Except.ok (f d).1,
          cell := { m with data := some (f d).2, state := Move.INIT_AND_IDLE },
          cs := false }) ∧
    (m.state = Move.UNINIT →
      Move.try_lock live m f =
        { ret := Except.error (), cell := m, cs := false }) ∧
    (m.state = Move.LOCKED →
      Move.try_lock live m f =
        { ret := Except.error (), cell := m, cs := false }) := by
  refine ⟨fun d h1 hd => ?_, fun h0 => ?_, fun h2 => ?_⟩
  · simp [Move.try_lock, hctx, Move.UNINIT, Move.INIT_AND_IDLE, h1, hd]
  · simp [Move.try_lock, hctx, h0]
  · simp [Move.try_lock, hctx, Move.UNINIT, Move.INIT_AND_IDLE, Move.LOCKED, h2]

/-- Witness for C2: a cell bound to interrupt 17, idle and holding `5`;
`try_lock` from live interrupt 17 with the callback returning `d + 1` and
storing `d * 2` yields `Ok 6` and the cell idle holding `10`. -/
theorem try_lock_matched_cases_w :
    Context.eq (Context.Interrupt TestIrq.timer1) (VectActive.Interrupt 17)
        = true ∧
    Move.try_lock (VectActive.Interrupt 17)
      ({ data := some 5, state := Move.INIT_AND_IDLE,
         context := Context.Interrupt TestIrq.timer1 } : Move Nat TestIrq)
      (fun d => (d + 1, d * 2)) =
      { ret := Except.ok 6,
        cell := { data := some 10, state := Move.INIT_AND_IDLE,
                  context := Context.Interrupt TestIrq.timer1 },
        cs := false } :=
  ⟨rfl,
    (try_lock_matched_cases
      ({ data := some 5, state := Move.INIT_AND_IDLE,
         context := Context.Interrupt TestIrq.timer1 } : Move Nat TestIrq)
      (VectActive.Interrupt 17) (fun d => (d + 1, d * 2)) rfl).1 5 rfl rfl⟩

/-- C6: for every cell state and payload, `try_lock` while the live context
does not equal the bound context returns `Err(())` immediately with the
cell untouched. -/
theorem try_lock_wrong_context {T I R : Type} [Nr I] (m : Move T I)
    (live : VectActive) (f : T → R × T)
    (h : Context.eq m.context live = false) :
    Move.try_lock live m f =
      { ret := Except.error (), cell := m, cs := false } := by
  simp [Move.try_lock, h]

/-- Witness for C6: a cell bound to interrupt 17, idle and holding a value,
locked from thread mode: the context comparison is `false` and the call
fails with the cell untouched. -/
theorem try_lock_wrong_context_w :
    Context.eq (Context.Interrupt TestIrq.timer1) VectActive.ThreadMode
        = false ∧
    Move.try_lock VectActive.ThreadMode
      ({ data := some 5, state := Move.INIT_AND_IDLE,
         context := Context.Interrupt TestIrq.timer1 } : Move Nat TestIrq)
      (fun d => (d + 1, d)) =
      { ret := Except.error (),
        cell := { data := some 5, state := Move.INIT_AND_IDLE,
                  context := Context.Interrupt TestIrq.timer1 },
        cs := false } :=
  ⟨rfl, try_lock_wrong_context _ _ _ rfl⟩

/-- Counterexample for C5: the claim says that outside thread mode
`try_move`/`try_free` fail with no critical section entered, but the source
wraps the entire body of both operations — including the thread-mode
check — in `cortex_m::interrupt::free`, so a critical section is entered
on the failing path too: evaluated at a concrete handler-mode call, the
`cs` flag is `true`, not `false`. -/
theorem thread_ops_enter_cs_cx :
    (Move.try_move (VectActive.Interrupt 3)
      ({ data := none, state := Move.UNINIT,
         context := Context.Interrupt TestIrq.timer1 } : Move Nat TestIrq)
      5).cs = true ∧
    (Move.try_free (VectActive.Interrupt 3)
      ({ data := none, state := Move.UNINIT,
         context := Context.Interrupt TestIrq.timer1 } : Move Nat TestIrq)
    ).cs = true :=
  ⟨rfl, rfl⟩

/-- C5 (amended): for every cell state and every live context that is not
thread mode, `try_move(data)` fails immediately with `Err(data)` handing
the input value back unconsumed, and `try_free()` fails with `Err(())`,
with the cell untouched; both calls do run inside the critical section,
since the source enters `free` before performing the context check. -/
theorem handler_mode_thread_ops_fail {T I : Type} (m : Move T I) (v : T)
    (live : VectActive) (h : live ≠ VectActive.ThreadMode) :
    Move.try_move live m v =
      { ret := Except.error v, cell := m, cs := true } ∧
    Move.try_free live m =
      { ret := Except.error (), cell := m, cs := true } := by
  cases live with
  | ThreadMode => exact absurd rfl h
  | Exception e => exact ⟨rfl, rfl⟩
  | Interrupt irqn => exact ⟨rfl, rfl⟩

/-- Witness for C5 (amended): a concrete locked cell poked from live
interrupt 3: `try_move` hands back `7`, `try_free` fails, nothing changes. -/
theorem handler_mode_thread_ops_fail_w :
    VectActive.Interrupt 3 ≠ VectActive.ThreadMode ∧
    Move.try_move (VectActive.Interrupt 3)
      ({ data := some 1, state := Move.LOCKED,
         context := Context.Interrupt TestIrq.uart0 } : Move Nat TestIrq)
      7 =
      { ret := Except.error 7,
        cell := { data := some 1, state := Move.LOCKED,
                  context := Context.Interrupt TestIrq.uart0 },
        cs := true } :=
  ⟨by decide,
    (handler_mode_thread_ops_fail
      ({ data := some 1, state := Move.LOCKED,
         context := Context.Interrupt TestIrq.uart0 } : Move Nat TestIrq)
      7 (VectActive.Interrupt 3) (by decide)).1⟩

/-- C7: context identity against the live vector holds exactly when kind
and value both match: exception-bound equals a live exception iff the same
exception; interrupt-bound equals a live interrupt iff the numeric ids are
equal; any kind mismatch — exception against interrupt (whatever the
numbers), or either kind against thread mode — is unequal. -/
theorem context_eq_laws {I : Type} [Nr I] :
    (∀ (e_s e_o : Exception),
      Context.eq (Context.Exception e_s : Context I)
          (VectActive.Exception e_o) = true ↔ e_s = e_o) ∧
    (∀ (i : I) (n : Nat),
      Context.eq (Context.Interrupt i) (VectActive.Interrupt n) = true ↔
        Nr.nr i = n) ∧
    (∀ (e : Exception) (n : Nat),
      Context.eq (Context.Exception e : Context I)
          (VectActive.Interrupt n) = false) ∧
    (∀ (i : I) (e : Exception),
      Context.eq (Context.Interrupt i) (VectActive.Exception e) = false) ∧
    (∀ (e : Exception),
      Context.eq (Context.Exception e : Context I)
          VectActive.ThreadMode = false) ∧
    (∀ (i : I),
      Context.eq (Context.Interrupt i) VectActive.ThreadMode = false) := by
  refine ⟨fun e_s e_o => ?_, fun i n => ?_, fun e n => rfl, fun i e => rfl,
    fun e => rfl, fun i => rfl⟩
  · show (e_s == e_o) = true ↔ e_s = e_o
    revert e_s e_o
    decide
  · show (Nr.nr i == n) = true ↔ Nr.nr i = n
    exact beq_iff_eq

/-- C8: for every state tag outside the three defined values, each of
`try_move`, `try_free` and `try_lock` behaves exactly as in the `Locked`
case — the respective error with cell and payload untouched (for
`try_lock`, whatever the live context), and the same returned value as the
same call on the cell with its tag forced to `LOCKED`. -/
theorem garbage_state_fails_closed {T I R : Type} [Nr I] (m : Move T I)
    (v : T) (live : VectActive) (f : T → R × T)
    (h0 : m.state ≠ Move.UNINIT) (h1 : m.state ≠ Move.INIT_AND_IDLE)
    (h2 : m.state ≠ Move.LOCKED) :
    Move.try_move VectActive.ThreadMode m v =
      { ret := Except.error v, cell := m, cs := true } ∧
    Move.try_free VectActive.ThreadMode m =
      { ret := Except.error (), cell := m, cs := true } ∧
    Move.try_lock live m f =
      { ret := Except.error (), cell := m, cs := false } ∧
    (Move.try_move VectActive.ThreadMode m v).ret =
      (Move.try_move VectActive.ThreadMode { m with state := Move.LOCKED }
        v).ret ∧
    (Move.try_free VectActive.ThreadMode m).ret =
      (Move.try_free VectActive.ThreadMode
        { m with state := Move.LOCKED }).ret ∧
    (Move.try_lock live m f).ret =
      (Move.try_lock live { m with state := Move.LOCKED } f).ret := by
  have hmv : Move.try_move VectActive.ThreadMode m v =
      { ret := Except.error v, cell := m, cs := true } := by
    simp [Move.try_move, h0, h1]
  have hfr : Move.try_free VectActive.ThreadMode m =
      { ret := Except.error (), cell := m, cs := true } := by
    simp [Move.try_free, h0, h1]
  have hlk : Move.try_lock live m f =
      { ret := Except.error (), cell := m, cs := false } := by
    rcases hc : Context.eq m.context live with _ | _
    · simp [Move.try_lock, hc]
    · simp [Move.try_lock, hc, h0, h1]
  have hlk2 : Move.try_lock live { m with state := Move.LOCKED } f =
      { ret := Except.error (),
        cell := { m with state := Move.LOCKED }, cs := false } := by
    rcases hc : Context.eq m.context live with _ | _
    · simp [Move.try_lock, hc]
    · simp [Move.try_lock, hc, Move.UNINIT, Move.INIT_AND_IDLE, Move.LOCKED]
  refine ⟨hmv, hfr, hlk, ?_, ?_, ?_⟩
  · rw [hmv]
    simp [Move.try_move, Move.UNINIT, Move.INIT_AND_IDLE, Move.LOCKED]
  · rw [hfr]
    simp [Move.try_free, Move.UNINIT, Move.INIT_AND_IDLE, Move.LOCKED]
  · rw [hlk, hlk2]

/-- Witness for C8: a cell whose tag carries the garbage value 77 refuses
every operation with the cell untouched. -/
theorem garbage_state_fails_closed_w :
    (77 : Nat) ≠ Move.UNINIT ∧ (77 : Nat) ≠ Move.INIT_AND_IDLE ∧
    (77 : Nat) ≠ Move.LOCKED ∧
    Move.try_move VectActive.ThreadMode
      ({ data := some 4, state := 77,
         context := Context.Interrupt TestIrq.timer1 } : Move Nat TestIrq)
      6 =
      { ret := Except.error 6,
        cell := { data := some 4, state := 77,
                  context := Context.Interrupt TestIrq.timer1 },
        cs := true } :=
  ⟨by decide, by decide, by decide,
    (garbage_state_fails_closed
      ({ data := some 4, state := 77,
         context := Context.Interrupt TestIrq.timer1 } : Move Nat TestIrq)
      6 (VectActive.Interrupt 17) (fun d => (d, d))
      (by decide) (by decide) (by decide)).1⟩

/-- C9: round-trip — starting in thread mode from `Uninit` or from
`InitAndIdle`, `try_move(x)` followed by `try_free()` returns `Ok(Some x)`
with `x` unchanged, and leaves the cell in `Uninit`. -/
theorem move_then_free_roundtrip {T I : Type} (m : Move T I) (x : T)
    (h : m.state = Move.UNINIT ∨ m.state = Move.INIT_AND_IDLE) :
    Move.try_free VectActive.ThreadMode
        (Move.try_move VectActive.ThreadMode m x).cell =
      { ret := Except.ok (some x),
        cell := { m with data := none, state := Move.UNINIT },
        cs := true } := by
  rcases h with h0 | h1
  · simp [Move.try_move, Move.try_free, Move.UNINIT, Move.INIT_AND_IDLE, h0]
  · simp [Move.try_move, Move.try_free, Move.UNINIT, Move.INIT_AND_IDLE, h1]

/-- Witness for C9: a fresh uninitialized cell; moving `9` in and freeing
returns `Ok(Some 9)` and the cell ends uninitialized. -/
theorem move_then_free_roundtrip_w :
    ((Move.new_uninit (Context.Interrupt TestIrq.timer1) : Move Nat TestIrq
      ).state = Move.UNINIT ∨
     (Move.new_uninit (Context.Interrupt TestIrq.timer1) : Move Nat TestIrq
      ).state = Move.INIT_AND_IDLE) ∧
    Move.try_free VectActive.ThreadMode
        (Move.try_move VectActive.ThreadMode
          (Move.new_uninit (Context.Interrupt TestIrq.timer1) : Move Nat TestIrq)
          9).cell =
      { ret := Except.ok (some 9),
        cell := { data := none, state := Move.UNINIT,
                  context := Context.Interrupt TestIrq.timer1 },
        cs := true } :=
  ⟨Or.inl rfl,
    move_then_free_roundtrip
      (Move.new_uninit (Context.Interrupt TestIrq.timer1) : Move Nat TestIrq)
      9 (Or.inl rfl)⟩

/-- C10: for a cell built with `Move::new(data0, ctxt)` the first
thread-mode `try_move(v)` returns `Ok(None)` — not `Ok(Some data0)` — and
overwrites `data0` in place, and neither `try_free` (which answers
`Ok(None)`) nor `try_lock` from any live context (which answers `Err(())`)
ever returns the constructor-supplied payload: it is discarded without
being read out. -/
theorem new_payload_never_returned {T I R : Type} [Nr I] (data0 v : T)
    (ctxt : Context I) :
    Move.try_move VectActive.ThreadMode (Move.new data0 ctxt) v =
      { ret := Except.ok none,
        cell := { data := some v, state := Move.INIT_AND_IDLE,
                  context := ctxt },
        cs := true } ∧
    Move.try_free VectActive.ThreadMode (Move.new data0 ctxt) =
      { ret := Except.ok none, cell := Move.new data0 ctxt, cs := true } ∧
    (∀ (live : VectActive) (f : T → R × T),
      Move.try_lock live (Move.new data0 ctxt) f =
        { ret := Except.error (), cell := Move.new data0 ctxt,
          cs := false }) := by
  refine ⟨?_, ?_, fun live f => ?_⟩
  · simp [Move.try_move, Move.new]
  · simp [Move.try_free, Move.new]
  · rcases hc : Context.eq (Move.new data0 ctxt).context live with _ | _
    · simp [Move.try_lock, hc]
    · simp [Move.try_lock, hc, Move.new]

/-- C1: counterevidence for the claimed `InitAndIdle` start of
`Move::new` — the source sets the state tag of `Move::new(data, ctxt)` to
`UNINIT`, so on the concrete instance `Move::new(42, Interrupt(TIMER1))`
the first `try_lock` from the bound context (live interrupt 17 = TIMER1)
fails with `Err(())` instead of observing the payload, and the first
thread-mode `try_move(7)` returns `Ok(None)` instead of `Ok(Some 42)`. -/
theorem new_starts_uninit_first_ops :
    (Move.new 42 (Context.Interrupt TestIrq.timer1) : Move Nat TestIrq
      ).state = Move.UNINIT ∧
    (Move.try_lock (VectActive.Interrupt 17)
      (Move.new 42 (Context.Interrupt TestIrq.timer1) : Move Nat TestIrq)
      (fun d => (d, d))).ret = Except.error () ∧
    (Move.try_move VectActive.ThreadMode
      (Move.new 42 (Context.Interrupt TestIrq.timer1) : Move Nat TestIrq)
      7).ret = Except.ok none :=
  ⟨rfl, rfl, rfl⟩
